import Mathlib

/-
Formal model of the Test-Digital-twin-backend service.
Definitions are shallow embeddings of the TypeScript source under src/:
  - src/digitaltwin/src/voice-service.ts   (VoiceService)
  - src/digitaltwin/src/debate-generator.ts (debate generator, Slack routes)
  - src/unnamed/part_000                    (REST API surface)
Strings are modelled as Lean String (chars standing for UTF-16 units of the
ASCII-dominated inputs); machine time is modelled as Int milliseconds or
seconds as indicated; external HTTP behaviour is a parameter of each model.
-/

/-- Lowercase an ASCII character, as JavaScript toLowerCase does on ASCII. -/
def lowerChar (c : Char) : Char :=
  if 'A' ≤ c ∧ c ≤ 'Z' then Char.ofNat (c.toNat + 32) else c

/-- Lowercase a string character-wise (JavaScript String.prototype.toLowerCase on ASCII). -/
def lowerStr (s : String) : String :=
  String.mk (s.toList.map lowerChar)

/-- Whitespace recognised by the model of JavaScript String.prototype.trim. -/
def isWsChar (c : Char) : Bool :=
  c = ' ' ∨ c = '\t' ∨ c = '\n' ∨ c = '\r'

/-- Model of JavaScript String.prototype.trim: strip leading and trailing whitespace. -/
def trimStr (s : String) : String :=
  String.mk (((s.toList.dropWhile isWsChar).reverse.dropWhile isWsChar).reverse)

/-- Take the first n characters of a string (JavaScript substring(0, n) / slice(0, n)). -/
def strTake (s : String) (n : Nat) : String :=
  String.mk (s.toList.take n)

/-- Prefix test on character lists. -/
def isPrefixOfL : List Char → List Char → Bool
  | [], _ => true
  | _ :: _, [] => false
  | a :: as, b :: bs => a = b && isPrefixOfL as bs

/-- Infix test on character lists, scanning left to right. -/
def isInfixOfL (pat : List Char) : List Char → Bool
  | [] => isPrefixOfL pat []
  | b :: bs => isPrefixOfL pat (b :: bs) || isInfixOfL pat bs

/-- Model of JavaScript String.prototype.includes: does s contain pat as a substring. -/
def strContains (s pat : String) : Bool :=
  isInfixOfL pat.toList s.toList

/-- Digit accumulator for parseNumber. -/
def parseNatAux : List Char → Nat → Option Nat
  | [], acc => some acc
  | c :: cs, acc =>
      if '0' ≤ c ∧ c ≤ '9' then parseNatAux cs (acc * 10 + (c.toNat - 48)) else none

/-- Model of JavaScript Number(string) restricted to integer literals:
empty string is 0, optional leading minus, digits; anything else is NaN (none). -/
def parseNumber (s : String) : Option Int :=
  match s.toList with
  | [] => some 0
  | '-' :: [] => none
  | '-' :: c :: cs => (parseNatAux (c :: cs) 0).map (fun n => -(n : Int))
  | cs => (parseNatAux cs 0).map (fun n => (n : Int))

/-- A JSON value shape, enough to distinguish strings from other values
as the handlers do with typeof checks. -/
inductive JsVal where
  | str (s : String)
  | num (n : Int)
  | boolean (b : Bool)
  | null
  | obj
deriving DecidableEq

/-- JavaScript truthiness of a JSON value. -/
def jsTruthy : Option JsVal → Bool
  | none => false
  | some (.str s) => decide (s ≠ "")
  | some (.num n) => decide (n ≠ 0)
  | some (.boolean b) => b
  | some .null => false
  | some .obj => true

/-- Body of a POST to /slack, destructured as const \x7b type, challenge, event \x7d = req.body. -/
structure SlackEventBody where
  type : Option JsVal
  challenge : Option JsVal
  event : Option JsVal
deriving DecidableEq

/-- Response produced by the bare /slack endpoint. -/
inductive SlackResponse where
  | okText (contentType : String) (body : String)
  | badRequestText (body : String)
  | sendStatus (code : Nat)
deriving DecidableEq

/-- From src/digitaltwin/src/debate-generator.ts lines 1154-1186: the bare
/slack endpoint. Registered before any signing-secret check, so the secret
parameter is unused, exactly as in the source handler body. -/
def slackEndpoint (_secret : String) (body : SlackEventBody) : SlackResponse :=
  if body.type = some (JsVal.str "url_verification") then
    match body.challenge with
    | some (JsVal.str c) =>
        if 0 < c.length then SlackResponse.okText "text/plain" c
        else SlackResponse.badRequestText "missing_challenge"
    | _ => SlackResponse.badRequestText "missing_challenge"
  else if body.type = some (JsVal.str "event_callback") ∧ jsTruthy body.event then
    SlackResponse.sendStatus 200
  else
    SlackResponse.sendStatus 200

/-- JavaScript-truthiness test: is the challenge a non-empty string
(typeof challenge === "string" && challenge.length > 0). -/
def challengeNonempty : Option JsVal → Bool
  | some (JsVal.str c) => decide (0 < c.length)
  | _ => false

/-- Replay-window rejection from verifySlackSignature, line 538 of
src/digitaltwin/src/debate-generator.ts: Math.abs(now/1000 - Number(ts)) > 300.
A non-numeric timestamp gives NaN, whose comparison is false, so it passes. -/
def replayReject (nowSec : Int) (ts : String) : Bool :=
  match parseNumber ts with
  | some n => decide (300 < (nowSec - n).natAbs)
  | none => false

/-- From src/digitaltwin/src/debate-generator.ts lines 531-547:
verifySlackSignature. The HMAC-SHA256 hex function is a parameter.
crypto.timingSafeEqual throws when the byte lengths differ, modelled by
Except.error; the outer route catches it. -/
def verifySlackSignature (hmac : String → String → String) (secret : String)
    (nowSec : Int) (rawBody : String)
    (timestamp signature : Option String) : Except Unit Bool :=
  match timestamp, signature with
  | some ts, some sg =>
      if secret = "" ∨ ts = "" ∨ sg = "" then Except.ok false
      else if replayReject nowSec ts then Except.ok false
      else
        let expected := "v0=" ++ hmac secret ("v0:" ++ ts ++ ":" ++ rawBody)
        if expected.utf8ByteSize = sg.utf8ByteSize then Except.ok (expected = sg)
        else Except.error ()
  | _, _ => Except.ok false

/-- Observable outcome of the /slack/webhook route: HTTP status, whether any
payload handler ran, and how many outbound Slack calls were attempted. -/
structure WebhookResult where
  status : Nat
  handlerRan : Bool
  outboundCalls : Nat
deriving DecidableEq

/-- From src/digitaltwin/src/debate-generator.ts lines 1213-1286: the signed
/slack/webhook route. The dispatch argument stands for the entire verified
branch of the handler (url_verification echo, interactive payloads, slash
commands); on verification failure the route answers 401 before reaching it,
and an exception thrown by the constant-time compare is caught by the
surrounding try/catch as a 500. -/
def webhookRoute (hmac : String → String → String) (secret : String)
    (nowSec : Int) (rawBody : String) (timestamp signature : Option String)
    (dispatch : WebhookResult) : WebhookResult :=
  match verifySlackSignature hmac secret nowSec rawBody timestamp signature with
  | Except.error _ => { status := 500, handlerRan := false, outboundCalls := 0 }
  | Except.ok false => { status := 401, handlerRan := false, outboundCalls := 0 }
  | Except.ok true => dispatch

/-- A stand-in HMAC-SHA256 hex function for concrete evaluation: like the real
one, it always returns a 64-character hex string. -/
def stubHmac : String → String → String :=
  fun _ _ => String.mk (List.replicate 64 'a')

/-- From src/digitaltwin/src/voice-service.ts lines 46-54: persona to trained
voice id map, in object-key insertion order. -/
def personaVoiceMap : List (String × String) := [
  ("Leonardo da Vinci", "iLVmqjzCGGvqtMCk6vVQ"),
  ("Steve Jobs", "RScb7njQ3VwA2nyCsZX4"),
  ("Albert Einstein", "e2odxVHlmLJ5GY1yuWNl"),
  ("Elon Musk", "3ltnAVoovAIVA7uE9Zbz"),
  ("Walt Disney", "1KmhFCCzy2hRrIDMEXFZ"),
  ("Emad Mostaque", "OXihjRbFbxh4LfP9Wt5H"),
  ("Fei-Fei Li", "JL6vl3xyRi3Ly7WoywNO")]

/-- From src/digitaltwin/src/voice-service.ts lines 57-72: alias table mapping
canonical names to lowercase name variants. -/
def personaAliases : List (String × List String) := [
  ("Fei-Fei Li", [
    "fei fei li",
    "fei-fei li",
    "feifei li",
    "fi fi lee",
    "fei fei lee",
    "fei-fei lee",
    "fifi li",
    "fei fei le",
    "fei-fei le",
    "fe fe li",
    "fe fe le",
    "fi fi li"])]

/-- Key lookup in an association list of strings (JavaScript object indexing). -/
def lookupStr (m : List (String × String)) (k : String) : Option String :=
  (m.find? (fun kv => kv.1 = k)).map (fun kv => kv.2)

/-- From src/digitaltwin/src/voice-service.ts lines 74-94:
resolveVoiceIdForPersona. Resolution order: exact key hit, case-insensitive
key scan, alias table, substring containment either way; a falsy (absent or
empty) name resolves to null. -/
def resolveVoiceIdForPersona : Option String → Option String
  | none => none
  | some name =>
    if name = "" then none
    else
      match lookupStr personaVoiceMap name with
      | some v => some v
      | none =>
        let normalized := trimStr (lowerStr name)
        match personaVoiceMap.find? (fun kv => lowerStr kv.1 = normalized) with
        | some kv => some kv.2
        | none =>
          match personaAliases.find? (fun ca => ca.2.contains normalized) with
          | some ca => lookupStr personaVoiceMap ca.1
          | none =>
            match personaVoiceMap.find? (fun kv =>
                strContains normalized (lowerStr kv.1) ||
                strContains (lowerStr kv.1) normalized) with
            | some kv => some kv.2
            | none => none

/-- From src/digitaltwin/src/voice-service.ts lines 96-107: selection of the
voice id actually used: an explicit truthy voiceId wins, then persona
resolution, then a default that special-cases personas containing
"leonardo". -/
def selectVoiceId (voiceId persona : Option String) : String :=
  let v1 : Option String :=
    match voiceId with
    | some v => if v = "" then none else some v
    | none => none
  let v2 : Option String :=
    match v1 with
    | some v => some v
    | none =>
      match resolveVoiceIdForPersona persona with
      | some v => if v = "" then none else some v
      | none => none
  match v2 with
  | some v => v
  | none =>
    if (match persona with
        | some p => strContains (lowerStr p) "leonardo"
        | none => false)
    then "iLVmqjzCGGvqtMCk6vVQ"
    else "RScb7njQ3VwA2nyCsZX4"

/-- From src/digitaltwin/src/voice-service.ts lines 34-38: truncation of the
text before the first provider attempt. -/
def truncateText (text : String) : String :=
  if 600 < text.length then strTake text 600 ++ "..." else text

/-- From src/digitaltwin/src/voice-service.ts lines 40-43: the moment the
provider call fires: a call arriving within 1000 ms of the recorded last-call
timestamp waits out the remainder of the delay. -/
def computeFireTime (now lastCall : Int) : Int :=
  if now - lastCall < 1000 then now + (1000 - (now - lastCall)) else now

/-- Behaviour of one fetch to the synthesis provider: a response with ok flag,
status, error body text and audio bytes, or a thrown exception. -/
inductive FetchOutcome where
  | response (ok : Bool) (status : Nat) (body : String) (audio : List Nat)
  | throws
deriving DecidableEq

/-- Result shape of synthesizeSpeech: raw audio bytes or the fallback
descriptor carrying reason, original text and persona. -/
inductive SynthOutput where
  | audio (bytes : List Nat)
  | fallback (reason : String) (text : String) (persona : Option String)
deriving DecidableEq

/-- Mutable VoiceService state relevant to synthesizeSpeech: the API key and
the last-call timestamp used by the rate limiter. -/
structure SynthState where
  apiKey : String
  lastCallTimestamp : Int
deriving DecidableEq

/-- Arguments of synthesizeSpeech. -/
structure SynthInput where
  text : String
  persona : Option String
  voiceId : Option String
deriving DecidableEq

/-- Observable trace of one synthesizeSpeech call: the payload texts passed to
makeRequest in order, the voice id used (none when no request was attempted),
the time the first provider call fires, the returned value, and the last-call
timestamp after the call. -/
structure SynthTrace where
  requests : List String
  voiceUsed : Option String
  fireTime : Int
  output : SynthOutput
  newLastCall : Int
deriving DecidableEq

/-- From src/digitaltwin/src/voice-service.ts lines 23-173: synthesizeSpeech.
now is Date.now() at entry; respTime is Date.now() when the successful
response has arrived (line 162); provider n is the behaviour of the n-th
fetch of this call. The whole body sits in a try/catch whose catch returns
the exception fallback, so a thrown fetch never escapes. -/
def synthesizeSpeech (st : SynthState) (now respTime : Int)
    (provider : Nat → FetchOutcome) (inp : SynthInput) : SynthTrace :=
  if st.apiKey = "" then
    { requests := [], voiceUsed := none, fireTime := now,
      output := SynthOutput.fallback "missing_api_key" inp.text inp.persona,
      newLastCall := st.lastCallTimestamp }
  else
    let truncatedText := truncateText inp.text
    let fire := computeFireTime now st.lastCallTimestamp
    let voice := selectVoiceId inp.voiceId inp.persona
    match provider 0 with
    | FetchOutcome.throws =>
      { requests := [truncatedText], voiceUsed := some voice, fireTime := fire,
        output := SynthOutput.fallback "exception" inp.text inp.persona,
        newLastCall := st.lastCallTimestamp }
    | FetchOutcome.response ok status body audio =>
      if ok then
        { requests := [truncatedText], voiceUsed := some voice, fireTime := fire,
          output := SynthOutput.audio audio, newLastCall := respTime }
      else if strContains body "quota_exceeded" then
        let shortText := strTake inp.text 120
        match provider 1 with
        | FetchOutcome.throws =>
          { requests := [truncatedText, shortText], voiceUsed := some voice,
            fireTime := fire,
            output := SynthOutput.fallback "exception" inp.text inp.persona,
            newLastCall := st.lastCallTimestamp }
        | FetchOutcome.response ok2 status2 _ audio2 =>
          if ok2 then
            { requests := [truncatedText, shortText], voiceUsed := some voice,
              fireTime := fire, output := SynthOutput.audio audio2,
              newLastCall := respTime }
          else
            { requests := [truncatedText, shortText], voiceUsed := some voice,
              fireTime := fire,
              output := SynthOutput.fallback
                ("api_error_" ++ toString status2) inp.text inp.persona,
              newLastCall := st.lastCallTimestamp }
      else
        { requests := [truncatedText], voiceUsed := some voice, fireTime := fire,
          output := SynthOutput.fallback
            ("api_error_" ++ toString status) inp.text inp.persona,
          newLastCall := st.lastCallTimestamp }

/-- A voice catalog entry as returned by the voice listing endpoints. -/
structure VoiceEntry where
  voice_id : String
  name : String
deriving DecidableEq

/-- Behaviour of one fetch of the provider voice catalog: a response with ok
flag, status and an optional voices array (none models a JSON body without a
voices field), or a thrown exception. -/
inductive VoicesFetch where
  | response (ok : Bool) (status : Nat) (voices : Option (List VoiceEntry))
  | throws
deriving DecidableEq

/-- From src/digitaltwin/src/voice-service.ts lines 178-181 and 201-204 and
214-217: the fixed two-entry fallback catalog. -/
def fallbackVoices : List VoiceEntry := [
  { voice_id := "iLVmqjzCGGvqtMCk6vVQ", name := "Leonardo da Vinci (Fallback)" },
  { voice_id := "RScb7njQ3VwA2nyCsZX4", name := "Steve Jobs (Fallback)" }]

/-- From src/digitaltwin/src/voice-service.ts lines 175-219: getVoices. On a
non-success status, a thrown fetch, or a success body without a voices array
(whose .map then throws and is caught), it returns the fallback catalog. -/
def getVoices (useElevenLabs : Bool) (f : VoicesFetch) : List VoiceEntry :=
  if useElevenLabs = false then fallbackVoices
  else
    match f with
    | VoicesFetch.throws => fallbackVoices
    | VoicesFetch.response ok _ voices =>
      if ok then
        match voices with
        | some vs => vs.map (fun v => { voice_id := v.voice_id, name := v.name })
        | none => fallbackVoices
      else fallbackVoices

/-- From src/digitaltwin/src/voice-service.ts lines 222-252: getAllVoices.
Missing API key returns []; a non-success status throws an Error that its own
catch turns into []; a thrown fetch gives []; a success body without a voices
array gives data.voices || [] = []. -/
def getAllVoices (apiKey : String) (f : VoicesFetch) : List VoiceEntry :=
  if apiKey = "" then []
  else
    match f with
    | VoicesFetch.throws => []
    | VoicesFetch.response ok _ voices =>
      if ok then voices.getD []
      else []

/-- A debate turn: speaker and text
(src/digitaltwin/src/debate-generator.ts lines 6-9). -/
structure DebateTurn where
  speaker : String
  text : String
deriving DecidableEq

/-- Result of generateDebate (src/digitaltwin/src/debate-generator.ts
lines 11-17). -/
structure DebateResult where
  topic : String
  turns : List DebateTurn
  combinedText : String
  audioBuffer : Option (List Nat)
deriving DecidableEq

/-- From src/digitaltwin/src/debate-generator.ts lines 20-23: default debate
speakers. -/
def DEFAULT_SPEAKERS : List String := ["Albert Einstein", "Steve Jobs"]

/-- From src/digitaltwin/src/debate-generator.ts lines 26-36:
craftPerspective. -/
def craftPerspective (speaker topic : String) (index : Nat) : String :=
  let base := trimStr topic
  if speaker = "Albert Einstein" then
    "From a theoretical and systemic perspective, \"" ++ base ++
    "\" demands that we examine fundamental assumptions, reduce them to first principles, then recompose them into models we can test. Practical progress emerges when abstraction meets empirical validation."
  else if speaker = "Steve Jobs" then
    "If we care about \"" ++ base ++
    "\", we have to start with the user experience and work backwards to the technology. Focus. Eliminate the noise. What actually delights or liberates people here? Build that—relentlessly."
  else
    speaker ++ " adds viewpoint #" ++ toString (index + 1) ++ " regarding \"" ++
    base ++ "\" focusing on pragmatic trade‑offs and emergent possibilities."

/-- Options of generateDebate (src/digitaltwin/src/debate-generator.ts
lines 38-43); none stands for an absent option. -/
structure GenerateDebateOptions where
  topic : String
  speakers : Option (List String)
  includeAudio : Option Bool
  maxTurnsPerSpeaker : Option Nat
deriving DecidableEq

/-- Turn list built by the nested round/speaker loops of generateDebate
(src/digitaltwin/src/debate-generator.ts lines 53-62). -/
def debateTurns (topic : String) (speakers : List String)
    (maxTurnsPerSpeaker : Nat) : List DebateTurn :=
  (List.range maxTurnsPerSpeaker).flatMap fun round =>
    speakers.enum.map fun p =>
      { speaker := p.2,
        text := craftPerspective p.2 topic (round * speakers.length + p.1) }

/-- Per-turn behaviour of voiceService.synthesizeSpeech as observed by the
audio loop of generateDebate: a Buffer, a fallback object, or a throw (which
the per-turn try/catch swallows). -/
inductive TurnSynth where
  | audio (bytes : List Nat)
  | fallbackValue
  | throws
deriving DecidableEq

/-- Audio buffers collected by the per-turn loop of generateDebate
(src/digitaltwin/src/debate-generator.ts lines 66-78): only Buffer results
are kept, fallbacks and thrown turns are skipped, remaining turns continue. -/
def collectAudio (synth : Nat → TurnSynth) : Nat → List DebateTurn → List (List Nat)
  | _, [] => []
  | i, _ :: rest =>
    match synth i with
    | TurnSynth.audio b => b :: collectAudio synth (i + 1) rest
    | _ => collectAudio synth (i + 1) rest

/-- From src/digitaltwin/src/debate-generator.ts lines 45-86: generateDebate.
synth n is the outcome of the synthesis call for the n-th turn. -/
def generateDebate (synth : Nat → TurnSynth)
    (opts : GenerateDebateOptions) : DebateResult :=
  let speakers := opts.speakers.getD DEFAULT_SPEAKERS
  let includeAudio := opts.includeAudio.getD false
  let maxTurns := opts.maxTurnsPerSpeaker.getD 1
  let turns := debateTurns opts.topic speakers maxTurns
  let audioBuffer : Option (List Nat) :=
    if includeAudio then
      let buffers := collectAudio synth 0 turns
      if buffers.length ≠ 0 then some buffers.flatten else none
    else none
  { topic := opts.topic,
    turns := turns,
    combinedText :=
      String.intercalate "\n"
        (turns.map fun t => "*" ++ t.speaker ++ ":* " ++ t.text),
    audioBuffer := audioBuffer }

/-- Observable outcome of handleDebateCommand: the synchronous acknowledgment
text, the texts passed to postSlackMessage in order, and the buffer passed to
uploadSlackFile when the upload branch is taken. -/
structure DebateCmdOutcome where
  ack : String
  posted : List String
  uploadedFile : Option (List Nat)
deriving DecidableEq

/-- From src/digitaltwin/src/debate-generator.ts lines 858-893:
handleDebateCommand. The topic is the trimmed slash-command text; an empty
topic answers with a usage hint and does nothing else; otherwise the command
acknowledges, generates a debate with includeAudio false, posts the combined
text, and uploads the audio buffer exactly when one is present and its length
is below 24000000 bytes. -/
def handleDebateCommand (synth : Nat → TurnSynth)
    (payloadText : String) : DebateCmdOutcome :=
  let topic := trimStr payloadText
  if topic = "" then
    { ack := "Please provide a topic, e.g. `/debate AI ethics`",
      posted := [], uploadedFile := none }
  else
    let debate := generateDebate synth
      { topic := topic, speakers := none, includeAudio := some false,
        maxTurnsPerSpeaker := none }
    { ack := "🎭 Generating debate on \"" ++ topic ++
        "\" between digital twin personas...",
      posted := ["*🎭 Debate: " ++ topic ++ "*\n" ++ debate.combinedText],
      uploadedFile :=
        match debate.audioBuffer with
        | some b => if b.length < 24000000 then some b else none
        | none => none }

/-- Body of a POST to /api/voice/synthesize as seen by the zod schema. -/
structure ApiVoiceBody where
  text : Option JsVal
  persona : Option JsVal
deriving DecidableEq

/-- From src/unnamed/part_000 lines 881-892: the zod schema
z.object(\x7b text: z.string().min(1).max(500), persona: z.string().optional() \x7d)
applied with safeParse. -/
def parseVoiceSynth (b : ApiVoiceBody) : Option (String × Option String) :=
  match b.text with
  | some (JsVal.str t) =>
    if 1 ≤ t.length ∧ t.length ≤ 500 then
      match b.persona with
      | none => some (t, none)
      | some (JsVal.str p) => some (t, some p)
      | some _ => none
    else none
  | _ => none

/-- Observable outcome of POST /api/voice/synthesize: the HTTP status, whether
voiceService.synthesizeSpeech was invoked, and the payload texts it sent. -/
structure ApiVoiceResult where
  status : Nat
  synthCalled : Bool
  sentTexts : List String
deriving DecidableEq

/-- From src/unnamed/part_000 lines 879-924: the /api/voice/synthesize
endpoint. Validation failure is a 400 and the voice service is never invoked;
otherwise the service is called and either the fallback JSON or the audio is
sent with status 200. -/
def apiVoiceSynthesize (st : SynthState) (now respTime : Int)
    (provider : Nat → FetchOutcome) (body : ApiVoiceBody) : ApiVoiceResult :=
  match parseVoiceSynth body with
  | none => { status := 400, synthCalled := false, sentTexts := [] }
  | some (t, p) =>
    let tr := synthesizeSpeech st now respTime provider
      { text := t, persona := p, voiceId := none }
    { status := 200, synthCalled := true, sentTexts := tr.requests }

/-- Characterisation of the error (thrown) outcome of verifySlackSignature:
precisely a present secret, timestamp and signature, a timestamp inside the
replay window, and a signature whose byte length differs from that of the
expected v0=hex string. -/
theorem verifySlackSignature_error_iff (hmac : String → String → String)
    (secret : String) (nowSec : Int) (rawBody : String)
    (timestamp signature : Option String) :
    verifySlackSignature hmac secret nowSec rawBody timestamp signature =
      Except.error () ↔
    ∃ ts sg, timestamp = some ts ∧ signature = some sg ∧
      ¬(secret = "" ∨ ts = "" ∨ sg = "") ∧ replayReject nowSec ts = false ∧
      ("v0=" ++ hmac secret ("v0:" ++ ts ++ ":" ++ rawBody)).utf8ByteSize ≠
        sg.utf8ByteSize := by
  cases timestamp with
  | none => simp [verifySlackSignature]
  | some ts =>
    cases signature with
    | none => simp [verifySlackSignature]
    | some sg =>
      simp only [verifySlackSignature]
      by_cases h1 : secret = "" ∨ ts = "" ∨ sg = ""
      · rw [if_pos h1]
        constructor
        · intro h; simp at h
        · rintro ⟨ts2, sg2, hts, hsg, hne, -, -⟩
          injection hts with h4; injection hsg with h5
          subst h4; subst h5
          exact absurd h1 hne
      · push_neg at h1
        obtain ⟨hz1, hz2, hz3⟩ := h1
        rw [if_neg (by simp [hz1, hz2, hz3])]
        by_cases h2 : replayReject nowSec ts = true
        · simp [h2]
        · rw [Bool.not_eq_true] at h2
          rw [if_neg (by simp [h2])]
          by_cases h3 :
              ("v0=" ++ hmac secret ("v0:" ++ ts ++ ":" ++ rawBody)).utf8ByteSize =
                sg.utf8ByteSize
          · simp [h3, hz1, hz2, hz3, h2]
          · simp [h3, hz1, hz2, hz3, h2]

/-- Claim C1 (amended): for every POST to /slack/webhook on which signature
verification does not succeed — mismatching signature, stale timestamp, or a
missing secret/timestamp/signature — no handler runs and no outbound Slack
call is made, and the response is HTTP 401, except that a present signature
whose byte length differs from that of the expected v0=hex string makes the
constant-time compare throw, which the route surfaces as HTTP 500. -/
theorem webhookRoute_reject_C1 (hmac : String → String → String)
    (secret : String) (nowSec : Int) (rawBody : String)
    (timestamp signature : Option String) (dispatch : WebhookResult)
    (h : verifySlackSignature hmac secret nowSec rawBody timestamp signature ≠
      Except.ok true) :
    (webhookRoute hmac secret nowSec rawBody timestamp signature
        dispatch).handlerRan = false ∧
    (webhookRoute hmac secret nowSec rawBody timestamp signature
        dispatch).outboundCalls = 0 ∧
    ((webhookRoute hmac secret nowSec rawBody timestamp signature
        dispatch).status = 401 ∨
     (webhookRoute hmac secret nowSec rawBody timestamp signature
        dispatch).status = 500) ∧
    ((webhookRoute hmac secret nowSec rawBody timestamp signature
        dispatch).status = 500 ↔
      ∃ ts sg, timestamp = some ts ∧ signature = some sg ∧
        ¬(secret = "" ∨ ts = "" ∨ sg = "") ∧ replayReject nowSec ts = false ∧
        ("v0=" ++ hmac secret ("v0:" ++ ts ++ ":" ++ rawBody)).utf8ByteSize ≠
          sg.utf8ByteSize) := by
  cases hv : verifySlackSignature hmac secret nowSec rawBody timestamp signature with
  | error e =>
    cases e
    rw [← verifySlackSignature_error_iff hmac secret nowSec rawBody
      timestamp signature]
    simp [webhookRoute, hv]
  | ok b =>
    cases b with
    | true => exact absurd hv h
    | false =>
      have hrhs : ¬ ∃ ts sg, timestamp = some ts ∧ signature = some sg ∧
          ¬(secret = "" ∨ ts = "" ∨ sg = "") ∧ replayReject nowSec ts = false ∧
          ("v0=" ++ hmac secret ("v0:" ++ ts ++ ":" ++ rawBody)).utf8ByteSize ≠
            sg.utf8ByteSize := by
        rw [← verifySlackSignature_error_iff hmac secret nowSec rawBody
          timestamp signature]
        simp [hv]
      refine ⟨by simp [webhookRoute, hv], by simp [webhookRoute, hv],
        Or.inl (by simp [webhookRoute, hv]), ?_⟩
      simp [webhookRoute, hv]
      intro ts hts sg hsg hs1 hs2 hs3 hrep
      by_contra hne
      exact hrhs ⟨ts, sg, hts, hsg, by tauto, hrep, hne⟩

/-- Claim C1 counterexample: with the secret configured, a fresh timestamp and
a well-formed raw body, a provided signature that does not equal the expected
v0=hex string but has a different length yields HTTP 500, not the HTTP 401
the claim asserts for every mismatching signature. -/
theorem webhookRoute_wrong_length_counterexample_C1 :
    (some "v0=x" : Option String) ≠
      some ("v0=" ++ stubHmac "secret" ("v0:" ++ "100" ++ ":" ++ "body")) ∧
    replayReject 100 "100" = false ∧
    (webhookRoute stubHmac "secret" 100 "body" (some "100") (some "v0=x")
      { status := 200, handlerRan := true, outboundCalls := 1 }).status = 500 := by
  refine ⟨?_, ?_, ?_⟩ <;> decide

/-- Claim C1 witness: a request with no timestamp and no signature headers is
answered 401 with no handler run and no outbound call. -/
theorem webhookRoute_reject_witness_C1 :
    (webhookRoute stubHmac "secret" 0 "x" none none
        { status := 200, handlerRan := true, outboundCalls := 1 }).handlerRan = false ∧
    (webhookRoute stubHmac "secret" 0 "x" none none
        { status := 200, handlerRan := true, outboundCalls := 1 }).outboundCalls = 0 ∧
    ((webhookRoute stubHmac "secret" 0 "x" none none
        { status := 200, handlerRan := true, outboundCalls := 1 }).status = 401 ∨
     (webhookRoute stubHmac "secret" 0 "x" none none
        { status := 200, handlerRan := true, outboundCalls := 1 }).status = 500) ∧
    ((webhookRoute stubHmac "secret" 0 "x" none none
        { status := 200, handlerRan := true, outboundCalls := 1 }).status = 500 ↔
      ∃ ts sg, (none : Option String) = some ts ∧ (none : Option String) = some sg ∧
        ¬(("secret" : String) = "" ∨ ts = "" ∨ sg = "") ∧ replayReject 0 ts = false ∧
        ("v0=" ++ stubHmac "secret" ("v0:" ++ ts ++ ":" ++ "x")).utf8ByteSize ≠
          sg.utf8ByteSize) :=
  webhookRoute_reject_C1 stubHmac "secret" 0 "x" none none
    { status := 200, handlerRan := true, outboundCalls := 1 }
    (by simp [verifySlackSignature])

/-- Claim C2: for every POST to /slack whose body has type "url_verification",
a non-empty string challenge is echoed back with HTTP 200 and Content-Type
text/plain; an absent, empty or non-string challenge yields HTTP 400; and the
behaviour does not depend on whether a signing secret is configured. -/
theorem slack_url_verification_C2 (secret : String) (body : SlackEventBody)
    (h : body.type = some (JsVal.str "url_verification")) :
    (∀ c : String, body.challenge = some (JsVal.str c) → 0 < c.length →
      slackEndpoint secret body = SlackResponse.okText "text/plain" c) ∧
    (challengeNonempty body.challenge = false →
      slackEndpoint secret body =
        SlackResponse.badRequestText "missing_challenge") ∧
    slackEndpoint secret body = slackEndpoint "" body := by
  refine ⟨?_, ?_, rfl⟩
  · intro c hc hlen
    simp [slackEndpoint, h, hc, hlen]
  · intro hch
    cases hc : body.challenge with
    | none => simp [slackEndpoint, h, hc]
    | some v =>
      cases v with
      | str s =>
        rw [hc] at hch
        simp only [challengeNonempty, decide_eq_false_iff_not, Nat.not_lt,
          Nat.le_zero] at hch
        simp [slackEndpoint, h, hc, hch]
      | num n => simp [slackEndpoint, h, hc]
      | boolean b => simp [slackEndpoint, h, hc]
      | null => simp [slackEndpoint, h, hc]
      | obj => simp [slackEndpoint, h, hc]

/-- Claim C2 witness: the payload type url_verification with challenge abc123
yields HTTP 200, text/plain, body exactly abc123, with no secret configured. -/
theorem slack_url_verification_witness_C2 :
    slackEndpoint ""
      { type := some (JsVal.str "url_verification"),
        challenge := some (JsVal.str "abc123"), event := none } =
      SlackResponse.okText "text/plain" "abc123" :=
  (slack_url_verification_C2 ""
    { type := some (JsVal.str "url_verification"),
      challenge := some (JsVal.str "abc123"), event := none } rfl).1
    "abc123" rfl (by decide)

/-- Claim C8: every persona name variant in the alias table resolves to the
same voice id as its canonical name. -/
theorem alias_resolution_C8 (canonical : String) (aliases : List String)
    (a : String) (hmem : (canonical, aliases) ∈ personaAliases)
    (ha : a ∈ aliases) :
    resolveVoiceIdForPersona (some a) =
      resolveVoiceIdForPersona (some canonical) := by
  simp only [personaAliases, List.mem_singleton, Prod.mk.injEq] at hmem
  obtain ⟨hc, hal⟩ := hmem
  subst hc; subst hal
  fin_cases ha <;> decide

/-- Claim C8 witness: the variant fi fi lee and the canonical Fei-Fei Li
resolve to the same voice id. -/
theorem alias_resolution_witness_C8 :
    resolveVoiceIdForPersona (some "fi fi lee") =
      resolveVoiceIdForPersona (some "Fei-Fei Li") :=
  alias_resolution_C8 "Fei-Fei Li"
    ["fei fei li", "fei-fei li", "feifei li", "fi fi lee", "fei fei lee",
     "fei-fei lee", "fifi li", "fei fei le", "fei-fei le", "fe fe li",
     "fe fe le", "fi fi li"]
    "fi fi lee" (by decide) (by decide)

/-- With an API key present, a synthesizeSpeech call fires its first provider
request at computeFireTime, sends the truncated text first, makes at least
one request, and records respTime as the new last-call timestamp exactly on
success. -/
theorem synthesizeSpeech_spec (st : SynthState) (now respTime : Int)
    (provider : Nat → FetchOutcome) (inp : SynthInput) (hk : st.apiKey ≠ "") :
    (synthesizeSpeech st now respTime provider inp).fireTime =
      computeFireTime now st.lastCallTimestamp ∧
    (synthesizeSpeech st now respTime provider inp).requests.head? =
      some (truncateText inp.text) ∧
    (synthesizeSpeech st now respTime provider inp).requests ≠ [] ∧
    (∀ b, (synthesizeSpeech st now respTime provider inp).output =
        SynthOutput.audio b →
      (synthesizeSpeech st now respTime provider inp).newLastCall = respTime) := by
  simp only [synthesizeSpeech, if_neg hk]
  cases h0 : provider 0 with
  | throws => simp
  | response ok status body audio =>
    cases ok with
    | true => simp
    | false =>
      by_cases hq : strContains body "quota_exceeded" = true
      · simp only [hq, if_true, Bool.false_eq_true, if_false]
        cases h1 : provider 1 with
        | throws => simp
        | response ok2 status2 body2 audio2 =>
          cases ok2 with
          | true => simp
          | false => simp
      · rw [Bool.not_eq_true] at hq
        simp [hq]

/-- A synthesizeSpeech call that returns audio was made with an API key
present. -/
theorem synthesizeSpeech_success_key (st : SynthState) (now respTime : Int)
    (provider : Nat → FetchOutcome) (inp : SynthInput) (b : List Nat)
    (h : (synthesizeSpeech st now respTime provider inp).output =
      SynthOutput.audio b) :
    st.apiKey ≠ "" := by
  intro hk
  simp [synthesizeSpeech, hk] at h

/-- The provider call never fires earlier than 1000 ms after the recorded
last-call timestamp. -/
theorem computeFireTime_ge (now lastCall : Int) :
    lastCall + 1000 ≤ computeFireTime now lastCall := by
  unfold computeFireTime
  split <;> omega

/-- Claim C3: for every input and every provider behaviour, synthesizeSpeech
returns exactly one of two shapes — raw audio bytes, or a fallback descriptor
whose reason is missing_api_key, api_error_(status) or exception — and never
raises; when the API key is absent it returns the missing_api_key fallback
without making any provider request. -/
theorem synthesize_shape_C3 (st : SynthState) (now respTime : Int)
    (provider : Nat → FetchOutcome) (text : String)
    (persona voiceId : Option String) :
    ((∃ b, (synthesizeSpeech st now respTime provider
        { text := text, persona := persona, voiceId := voiceId }).output =
          SynthOutput.audio b) ∨
     (∃ r, (synthesizeSpeech st now respTime provider
        { text := text, persona := persona, voiceId := voiceId }).output =
          SynthOutput.fallback r text persona ∧
        (r = "missing_api_key" ∨ r = "exception" ∨
         ∃ s : Nat, r = "api_error_" ++ toString s))) ∧
    (st.apiKey = "" →
      (synthesizeSpeech st now respTime provider
        { text := text, persona := persona, voiceId := voiceId }).requests = [] ∧
      (synthesizeSpeech st now respTime provider
        { text := text, persona := persona, voiceId := voiceId }).output =
        SynthOutput.fallback "missing_api_key" text persona) := by
  constructor
  · by_cases hk : st.apiKey = ""
    · right
      exact ⟨"missing_api_key", by simp [synthesizeSpeech, hk], Or.inl rfl⟩
    · cases h0 : provider 0 with
      | throws =>
        right
        exact ⟨"exception", by simp [synthesizeSpeech, hk, h0],
          Or.inr (Or.inl rfl)⟩
      | response ok status body audio =>
        cases ok with
        | true => exact Or.inl ⟨audio, by simp [synthesizeSpeech, hk, h0]⟩
        | false =>
          by_cases hq : strContains body "quota_exceeded" = true
          · cases h1 : provider 1 with
            | throws =>
              right
              exact ⟨"exception", by simp [synthesizeSpeech, hk, h0, hq, h1],
                Or.inr (Or.inl rfl)⟩
            | response ok2 status2 body2 audio2 =>
              cases ok2 with
              | true =>
                exact Or.inl ⟨audio2,
                  by simp [synthesizeSpeech, hk, h0, hq, h1]⟩
              | false =>
                right
                exact ⟨"api_error_" ++ toString status2,
                  by simp [synthesizeSpeech, hk, h0, hq, h1],
                  Or.inr (Or.inr ⟨status2, rfl⟩)⟩
          · rw [Bool.not_eq_true] at hq
            right
            exact ⟨"api_error_" ++ toString status,
              by simp [synthesizeSpeech, hk, h0, hq],
              Or.inr (Or.inr ⟨status, rfl⟩)⟩
  · intro hk
    constructor <;> simp [synthesizeSpeech, hk]

/-- Claim C3 witness: with no API key configured, a call makes no provider
request and returns the missing_api_key fallback. -/
theorem synthesize_shape_witness_C3 :
    (synthesizeSpeech { apiKey := "", lastCallTimestamp := 0 } 0 0
      (fun _ => FetchOutcome.throws)
      { text := "hello", persona := none, voiceId := none }).requests = [] ∧
    (synthesizeSpeech { apiKey := "", lastCallTimestamp := 0 } 0 0
      (fun _ => FetchOutcome.throws)
      { text := "hello", persona := none, voiceId := none }).output =
      SynthOutput.fallback "missing_api_key" "hello" none :=
  (synthesize_shape_C3 { apiKey := "", lastCallTimestamp := 0 } 0 0
    (fun _ => FetchOutcome.throws) "hello" none none).2 rfl

/-- Claim C4: when the first provider response is non-success with a body
containing quota_exceeded, exactly one retry request is made and its text is
the first 120 characters of the original untruncated input; a success, any
other non-success response, or a throw produces no retry. -/
theorem quota_retry_C4 (st : SynthState) (now respTime : Int)
    (provider : Nat → FetchOutcome) (text : String)
    (persona voiceId : Option String) (hk : st.apiKey ≠ "") :
    (∀ status body audio,
      provider 0 = FetchOutcome.response false status body audio →
      (strContains body "quota_exceeded" = true →
        (synthesizeSpeech st now respTime provider
          { text := text, persona := persona, voiceId := voiceId }).requests =
          [truncateText text, strTake text 120]) ∧
      (strContains body "quota_exceeded" = false →
        (synthesizeSpeech st now respTime provider
          { text := text, persona := persona, voiceId := voiceId }).requests =
          [truncateText text])) ∧
    (∀ status body audio,
      provider 0 = FetchOutcome.response true status body audio →
      (synthesizeSpeech st now respTime provider
        { text := text, persona := persona, voiceId := voiceId }).requests =
        [truncateText text]) ∧
    (provider 0 = FetchOutcome.throws →
      (synthesizeSpeech st now respTime provider
        { text := text, persona := persona, voiceId := voiceId }).requests =
        [truncateText text]) := by
  refine ⟨?_, ?_, ?_⟩
  · intro status body audio h0
    constructor
    · intro hq
      cases h1 : provider 1 with
      | throws => simp [synthesizeSpeech, hk, h0, hq, h1]
      | response ok2 status2 body2 audio2 =>
        cases ok2 with
        | true => simp [synthesizeSpeech, hk, h0, hq, h1]
        | false => simp [synthesizeSpeech, hk, h0, hq, h1]
    · intro hq
      simp [synthesizeSpeech, hk, h0, hq]
  · intro status body audio h0
    simp [synthesizeSpeech, hk, h0]
  · intro h0
    simp [synthesizeSpeech, hk, h0]

/-- Claim C4 witness: a quota_exceeded first response causes exactly one
retry whose payload is the 120-character prefix of the original text. -/
theorem quota_retry_witness_C4 :
    (strContains "quota_exceeded" "quota_exceeded" = true →
      (synthesizeSpeech { apiKey := "k", lastCallTimestamp := 0 } 0 0
        (fun n => if n = 0 then FetchOutcome.response false 429 "quota_exceeded" []
          else FetchOutcome.response true 200 "" [7])
        { text := "hello", persona := none, voiceId := none }).requests =
        [truncateText "hello", strTake "hello" 120]) ∧
    (strContains "quota_exceeded" "quota_exceeded" = false →
      (synthesizeSpeech { apiKey := "k", lastCallTimestamp := 0 } 0 0
        (fun n => if n = 0 then FetchOutcome.response false 429 "quota_exceeded" []
          else FetchOutcome.response true 200 "" [7])
        { text := "hello", persona := none, voiceId := none }).requests =
        [truncateText "hello"]) :=
  (quota_retry_C4 { apiKey := "k", lastCallTimestamp := 0 } 0 0
    (fun n => if n = 0 then FetchOutcome.response false 429 "quota_exceeded" []
      else FetchOutcome.response true 200 "" [7])
    "hello" none none (by decide)).1 429 "quota_exceeded" [] rfl

/-- Claim C5: with an API key present, the text sent on the first attempt is
the input truncated at 600 characters: input longer than 600 characters is
sent as exactly its first 600 characters followed by the 3-character suffix
"...", for a total of 603 characters; input of 600 characters or fewer is
sent unchanged. -/
theorem truncation_C5 (st : SynthState) (now respTime : Int)
    (provider : Nat → FetchOutcome) (text : String)
    (persona voiceId : Option String) (hk : st.apiKey ≠ "") :
    (synthesizeSpeech st now respTime provider
      { text := text, persona := persona, voiceId := voiceId }).requests.head? =
      some (truncateText text) ∧
    (600 < text.length →
      truncateText text = strTake text 600 ++ "..." ∧
      (strTake text 600).length = 600 ∧
      (truncateText text).length = 603) ∧
    (text.length ≤ 600 → truncateText text = text) := by
  refine ⟨(synthesizeSpeech_spec st now respTime provider
    { text := text, persona := persona, voiceId := voiceId } hk).2.1, ?_, ?_⟩
  · intro hlen
    have hlen2 : 600 < text.data.length := hlen
    have htake : (strTake text 600).length = 600 := by
      show (text.data.take 600).length = 600
      rw [List.length_take]
      omega
    refine ⟨by simp [truncateText, hlen], htake, ?_⟩
    simp only [truncateText, if_pos hlen]
    rw [String.length_append, htake]
    decide
  · intro hlen
    simp [truncateText, Nat.not_lt.mpr hlen]

/-- Claim C5 witness: a 601-character text is sent as its 600-character
prefix plus an ellipsis, and a short text is sent unchanged. -/
theorem truncation_witness_C5 :
    (synthesizeSpeech { apiKey := "k", lastCallTimestamp := 0 } 0 0
      (fun _ => FetchOutcome.response true 200 "" [1])
      { text := String.mk (List.replicate 601 'a'), persona := none,
        voiceId := none }).requests.head? =
      some (truncateText (String.mk (List.replicate 601 'a'))) ∧
    truncateText (String.mk (List.replicate 601 'a')) =
      strTake (String.mk (List.replicate 601 'a')) 600 ++ "..." ∧
    truncateText "hi" = "hi" := by
  have hlen : 600 < (String.mk (List.replicate 601 'a')).length := by
    show 600 < (List.replicate 601 'a').length
    rw [List.length_replicate]
    omega
  have h := truncation_C5 { apiKey := "k", lastCallTimestamp := 0 } 0 0
    (fun _ => FetchOutcome.response true 200 "" [1])
    (String.mk (List.replicate 601 'a')) none none (by decide)
  have h2 := truncation_C5 { apiKey := "k", lastCallTimestamp := 0 } 0 0
    (fun _ => FetchOutcome.response true 200 "" [1]) "hi" none none (by decide)
  exact ⟨h.1, (h.2.1 hlen).1, h2.2.2 (by decide)⟩

/-- Claim C6 (amended): for two back-to-back synthesizeSpeech calls on the
same service whose first call succeeds (its response arriving no earlier than
its provider call fired), the provider calls fire at least 1000 ms apart; a
call arriving sooner than 1000 ms after the recorded last-call timestamp
suspends until that timestamp plus 1000 ms; and the timestamp is updated only
on success, so after a failed first call the gap is not guaranteed. -/
theorem rate_limit_C6 (st : SynthState) (now1 resp1 now2 resp2 : Int)
    (prov1 prov2 : Nat → FetchOutcome) (inp1 inp2 : SynthInput) (b : List Nat)
    (hfire : (synthesizeSpeech st now1 resp1 prov1 inp1).fireTime ≤ resp1)
    (hsucc : (synthesizeSpeech st now1 resp1 prov1 inp1).output =
      SynthOutput.audio b) :
    (synthesizeSpeech st now1 resp1 prov1 inp1).fireTime + 1000 ≤
      (synthesizeSpeech
        { apiKey := st.apiKey,
          lastCallTimestamp :=
            (synthesizeSpeech st now1 resp1 prov1 inp1).newLastCall }
        now2 resp2 prov2 inp2).fireTime ∧
    (synthesizeSpeech st now1 resp1 prov1 inp1).newLastCall = resp1 ∧
    (synthesizeSpeech st now1 resp1 prov1 inp1).requests ≠ [] ∧
    (synthesizeSpeech
        { apiKey := st.apiKey,
          lastCallTimestamp :=
            (synthesizeSpeech st now1 resp1 prov1 inp1).newLastCall }
        now2 resp2 prov2 inp2).requests ≠ [] ∧
    (∀ (s : SynthState) (n r : Int) (p : Nat → FetchOutcome) (i : SynthInput),
      s.apiKey ≠ "" → n - s.lastCallTimestamp < 1000 →
      (synthesizeSpeech s n r p i).fireTime = s.lastCallTimestamp + 1000) := by
  have hk : st.apiKey ≠ "" :=
    synthesizeSpeech_success_key st now1 resp1 prov1 inp1 b hsucc
  have hspec1 := synthesizeSpeech_spec st now1 resp1 prov1 inp1 hk
  have hnew : (synthesizeSpeech st now1 resp1 prov1 inp1).newLastCall = resp1 :=
    hspec1.2.2.2 b hsucc
  have hmech : ∀ (s : SynthState) (n r : Int) (p : Nat → FetchOutcome)
      (i : SynthInput), s.apiKey ≠ "" → n - s.lastCallTimestamp < 1000 →
      (synthesizeSpeech s n r p i).fireTime = s.lastCallTimestamp + 1000 := by
    intro s n r p i hks hlt
    rw [(synthesizeSpeech_spec s n r p i hks).1]
    unfold computeFireTime
    rw [if_pos hlt]
    omega
  have hspec2 := synthesizeSpeech_spec
    { apiKey := st.apiKey,
      lastCallTimestamp :=
        (synthesizeSpeech st now1 resp1 prov1 inp1).newLastCall }
    now2 resp2 prov2 inp2 hk
  refine ⟨?_, hnew, hspec1.2.2.1, hspec2.2.2.1, hmech⟩
  rw [hspec2.1]
  rw [hspec1.1] at hfire ⊢
  simp only [hnew]
  have hge := computeFireTime_ge now2 resp1
  omega

/-- Claim C6 counterexample: when the first call fails (the provider answers
a non-success status), the last-call timestamp is not updated, and a second
call 100 ms later fires only 100 ms after the first — under the 1000 ms gap
the claim asserts for every back-to-back pair. -/
theorem rate_limit_counterexample_C6 :
    (synthesizeSpeech { apiKey := "k", lastCallTimestamp := 0 } 5000 5000
      (fun _ => FetchOutcome.response false 500 "err" [])
      { text := "hi", persona := none, voiceId := none }).requests ≠ [] ∧
    (synthesizeSpeech { apiKey := "k", lastCallTimestamp := 0 } 5000 5000
      (fun _ => FetchOutcome.response false 500 "err" [])
      { text := "hi", persona := none, voiceId := none }).fireTime = 5000 ∧
    (synthesizeSpeech { apiKey := "k", lastCallTimestamp := 0 } 5000 5000
      (fun _ => FetchOutcome.response false 500 "err" [])
      { text := "hi", persona := none, voiceId := none }).newLastCall = 0 ∧
    (synthesizeSpeech
      { apiKey := "k",
        lastCallTimestamp :=
          (synthesizeSpeech { apiKey := "k", lastCallTimestamp := 0 } 5000 5000
            (fun _ => FetchOutcome.response false 500 "err" [])
            { text := "hi", persona := none, voiceId := none }).newLastCall }
      5100 5100 (fun _ => FetchOutcome.response false 500 "err" [])
      { text := "hi", persona := none, voiceId := none }).requests ≠ [] ∧
    (synthesizeSpeech
      { apiKey := "k",
        lastCallTimestamp :=
          (synthesizeSpeech { apiKey := "k", lastCallTimestamp := 0 } 5000 5000
            (fun _ => FetchOutcome.response false 500 "err" [])
            { text := "hi", persona := none, voiceId := none }).newLastCall }
      5100 5100 (fun _ => FetchOutcome.response false 500 "err" [])
      { text := "hi", persona := none, voiceId := none }).fireTime = 5100 := by
  refine ⟨?_, ?_, ?_, ?_, ?_⟩ <;> decide

/-- Claim C6 witness: a successful first call at fire time 2000 followed by a
second call 100 ms later makes the second provider call wait until 3000. -/
theorem rate_limit_witness_C6 :
    (synthesizeSpeech { apiKey := "k", lastCallTimestamp := 0 } 2000 2000
      (fun _ => FetchOutcome.response true 200 "" [5])
      { text := "hi", persona := none, voiceId := none }).fireTime + 1000 ≤
      (synthesizeSpeech
        { apiKey := "k",
          lastCallTimestamp :=
            (synthesizeSpeech { apiKey := "k", lastCallTimestamp := 0 } 2000 2000
              (fun _ => FetchOutcome.response true 200 "" [5])
              { text := "hi", persona := none, voiceId := none }).newLastCall }
        2100 3100 (fun _ => FetchOutcome.response true 200 "" [5])
        { text := "hi", persona := none, voiceId := none }).fireTime ∧
    (synthesizeSpeech { apiKey := "k", lastCallTimestamp := 0 } 2000 2000
      (fun _ => FetchOutcome.response true 200 "" [5])
      { text := "hi", persona := none, voiceId := none }).newLastCall = 2000 :=
  ⟨(rate_limit_C6 { apiKey := "k", lastCallTimestamp := 0 } 2000 2000 2100 3100
      (fun _ => FetchOutcome.response true 200 "" [5])
      (fun _ => FetchOutcome.response true 200 "" [5])
      { text := "hi", persona := none, voiceId := none }
      { text := "hi", persona := none, voiceId := none } [5]
      (by decide) (by decide)).1,
   (rate_limit_C6 { apiKey := "k", lastCallTimestamp := 0 } 2000 2000 2100 3100
      (fun _ => FetchOutcome.response true 200 "" [5])
      (fun _ => FetchOutcome.response true 200 "" [5])
      { text := "hi", persona := none, voiceId := none }
      { text := "hi", persona := none, voiceId := none } [5]
      (by decide) (by decide)).2.1⟩

/-- A successful synthesis at any turn position leaves the collected audio
list non-empty: failures at other turns are skipped, not aborting. -/
theorem collectAudio_ne_of_success (synth : Nat → TurnSynth)
    (ts : List DebateTurn) (k i : Nat) (b : List Nat)
    (hi : i < ts.length) (hs : synth (k + i) = TurnSynth.audio b) :
    collectAudio synth k ts ≠ [] := by
  induction ts generalizing k i with
  | nil => simp at hi
  | cons t rest ih =>
    cases i with
    | zero =>
      rw [Nat.add_zero] at hs
      simp [collectAudio, hs]
    | succ j =>
      simp only [collectAudio]
      cases synth k with
      | audio c => simp
      | fallbackValue =>
        exact ih (k + 1) j (by simpa using hi)
          (by rw [show k + 1 + j = k + (j + 1) by omega]; exact hs)
      | throws =>
        exact ih (k + 1) j (by simpa using hi)
          (by rw [show k + 1 + j = k + (j + 1) by omega]; exact hs)

/-- With includeAudio false — as handleDebateCommand requests — generateDebate
produces no audio buffer. -/
theorem generateDebate_noAudio (synth : Nat → TurnSynth) (topic : String) :
    (generateDebate synth
      { topic := topic, speakers := none, includeAudio := some false,
        maxTurnsPerSpeaker := none }).audioBuffer = none := by
  simp [generateDebate]

/-- With includeAudio true, the audio buffer is the in-order concatenation of
the successful turns, present exactly when at least one turn succeeded. -/
theorem generateDebate_audio (synth : Nat → TurnSynth)
    (opts : GenerateDebateOptions) (h : opts.includeAudio = some true) :
    (generateDebate synth opts).audioBuffer =
      (if collectAudio synth 0 (generateDebate synth opts).turns = [] then none
       else some (collectAudio synth 0 (generateDebate synth opts).turns).flatten) := by
  simp only [generateDebate, h, Option.getD_some, if_true]
  by_cases hc : collectAudio synth 0
      (debateTurns opts.topic (opts.speakers.getD DEFAULT_SPEAKERS)
        (opts.maxTurnsPerSpeaker.getD 1)) = []
  · simp [hc]
  · simp [hc, List.length_eq_zero]

/-- Claim C7: a /debate slash command with a non-empty topic acknowledges,
posts the combined debate text, and uploads the debate audio exactly when the
result carries a buffer under 24000000 bytes; in the audio branch a per-turn
synthesis failure is skipped without aborting the remaining turns, and audio
is concatenated in turn order exactly when at least one turn succeeded. -/
theorem debate_command_C7 (synth synth2 : Nat → TurnSynth)
    (payloadText : String) (opts2 : GenerateDebateOptions)
    (h : trimStr payloadText ≠ "") (h2 : opts2.includeAudio = some true) :
    (handleDebateCommand synth payloadText).ack =
      "🎭 Generating debate on \"" ++ trimStr payloadText ++
        "\" between digital twin personas..." ∧
    (handleDebateCommand synth payloadText).posted =
      ["*🎭 Debate: " ++ trimStr payloadText ++ "*\n" ++
        (generateDebate synth
          { topic := trimStr payloadText, speakers := none,
            includeAudio := some false,
            maxTurnsPerSpeaker := none }).combinedText] ∧
    (∀ b, (handleDebateCommand synth payloadText).uploadedFile = some b ↔
      ((generateDebate synth
        { topic := trimStr payloadText, speakers := none,
          includeAudio := some false,
          maxTurnsPerSpeaker := none }).audioBuffer = some b ∧
       b.length < 24000000)) ∧
    ((generateDebate synth2 opts2).audioBuffer = none ↔
      collectAudio synth2 0 (generateDebate synth2 opts2).turns = []) ∧
    (∀ buf, (generateDebate synth2 opts2).audioBuffer = some buf →
      buf = (collectAudio synth2 0 (generateDebate synth2 opts2).turns).flatten) ∧
    (∀ i b, i < (generateDebate synth2 opts2).turns.length →
      synth2 i = TurnSynth.audio b →
      ∃ buf, (generateDebate synth2 opts2).audioBuffer = some buf) := by
  refine ⟨?_, ?_, ?_, ?_, ?_, ?_⟩
  · simp [handleDebateCommand, h]
  · simp [handleDebateCommand, h]
  · intro b
    simp [handleDebateCommand, h, generateDebate_noAudio]
  · rw [generateDebate_audio synth2 opts2 h2]
    by_cases hc : collectAudio synth2 0 (generateDebate synth2 opts2).turns = []
    · simp [hc]
    · simp [hc]
  · intro buf hbuf
    rw [generateDebate_audio synth2 opts2 h2] at hbuf
    by_cases hc : collectAudio synth2 0 (generateDebate synth2 opts2).turns = []
    · rw [if_pos hc] at hbuf
      simp at hbuf
    · rw [if_neg hc] at hbuf
      injection hbuf with hb
      exact hb.symm
  · intro i b hi hs
    have hne := collectAudio_ne_of_success synth2
      (generateDebate synth2 opts2).turns 0 i b hi (by simpa using hs)
    rw [generateDebate_audio synth2 opts2 h2]
    simp [hne]

/-- Claim C7 witness: a concrete /debate command posts the generated combined
text, and in an audio-enabled debate a first-turn throw does not prevent the
audio of the second turn from producing a buffer. -/
theorem debate_command_witness_C7 :
    (handleDebateCommand (fun _ => TurnSynth.fallbackValue)
      " AI ethics ").posted =
      ["*🎭 Debate: " ++ trimStr " AI ethics " ++ "*\n" ++
        (generateDebate (fun _ => TurnSynth.fallbackValue)
          { topic := trimStr " AI ethics ", speakers := none,
            includeAudio := some false,
            maxTurnsPerSpeaker := none }).combinedText] ∧
    (∃ buf, (generateDebate
        (fun i => if i = 0 then TurnSynth.throws else TurnSynth.audio [3])
        { topic := "t", speakers := none, includeAudio := some true,
          maxTurnsPerSpeaker := none }).audioBuffer = some buf) :=
  ⟨(debate_command_C7 (fun _ => TurnSynth.fallbackValue)
      (fun i => if i = 0 then TurnSynth.throws else TurnSynth.audio [3])
      " AI ethics "
      { topic := "t", speakers := none, includeAudio := some true,
        maxTurnsPerSpeaker := none }
      (by decide) rfl).2.1,
   (debate_command_C7 (fun _ => TurnSynth.fallbackValue)
      (fun i => if i = 0 then TurnSynth.throws else TurnSynth.audio [3])
      " AI ethics "
      { topic := "t", speakers := none, includeAudio := some true,
        maxTurnsPerSpeaker := none }
      (by decide) rfl).2.2.2.2.2 1 [3] (by decide) (by decide)⟩

/-- Validation success at /api/voice/synthesize forces the text to be the
body text string, with length between 1 and 500. -/
theorem parseVoiceSynth_sound (b : ApiVoiceBody) (t : String)
    (p : String × Option String) (ht : b.text = some (JsVal.str t))
    (h : parseVoiceSynth b = some p) :
    p.1 = t ∧ 1 ≤ t.length ∧ t.length ≤ 500 := by
  simp only [parseVoiceSynth, ht] at h
  by_cases hlen : 1 ≤ t.length ∧ t.length ≤ 500
  · rw [if_pos hlen] at h
    cases hp : b.persona with
    | none =>
      rw [hp] at h
      injection h with h2
      exact ⟨by rw [← h2], hlen.1, hlen.2⟩
    | some v =>
      rw [hp] at h
      cases v with
      | str s =>
        injection h with h2
        exact ⟨by rw [← h2], hlen.1, hlen.2⟩
      | num n => simp at h
      | boolean bb => simp at h
      | null => simp at h
      | obj => simp at h
  · rw [if_neg hlen] at h
    simp at h

/-- Claim C9: a POST to /api/voice/synthesize whose body text is empty or
longer than 500 characters is answered 400 and the voice service is never
invoked; when the service is invoked through this endpoint, the text is at
most 500 characters, so the 600-character truncation leaves it unchanged. -/
theorem api_voice_validation_C9 (st : SynthState) (now respTime : Int)
    (provider : Nat → FetchOutcome) (body : ApiVoiceBody) (t : String)
    (ht : body.text = some (JsVal.str t))
    (hbad : t.length = 0 ∨ 500 < t.length) :
    (apiVoiceSynthesize st now respTime provider body).status = 400 ∧
    (apiVoiceSynthesize st now respTime provider body).synthCalled = false ∧
    (apiVoiceSynthesize st now respTime provider body).sentTexts = [] ∧
    (∀ (body2 : ApiVoiceBody) (t2 : String),
      body2.text = some (JsVal.str t2) →
      (apiVoiceSynthesize st now respTime provider body2).synthCalled = true →
      truncateText t2 = t2 ∧ t2.length ≤ 500) := by
  have hparse : parseVoiceSynth body = none := by
    simp only [parseVoiceSynth, ht]
    rw [if_neg (by omega)]
  refine ⟨?_, ?_, ?_, ?_⟩
  · simp [apiVoiceSynthesize, hparse]
  · simp [apiVoiceSynthesize, hparse]
  · simp [apiVoiceSynthesize, hparse]
  · intro body2 t2 ht2 hcalled
    cases hp : parseVoiceSynth body2 with
    | none => simp [apiVoiceSynthesize, hp] at hcalled
    | some pr =>
      have hsound := parseVoiceSynth_sound body2 t2 pr ht2 hp
      refine ⟨?_, hsound.2.2⟩
      simp only [truncateText]
      rw [if_neg (by omega)]

/-- Claim C9 witness: an empty text is rejected with 400 and no synthesis
call; a 501-character text likewise; a valid text is not truncated. -/
theorem api_voice_validation_witness_C9 :
    (apiVoiceSynthesize { apiKey := "k", lastCallTimestamp := 0 } 0 0
      (fun _ => FetchOutcome.response true 200 "" [1])
      { text := some (JsVal.str ""), persona := none }).status = 400 ∧
    (apiVoiceSynthesize { apiKey := "k", lastCallTimestamp := 0 } 0 0
      (fun _ => FetchOutcome.response true 200 "" [1])
      { text := some (JsVal.str ""), persona := none }).synthCalled = false ∧
    truncateText "ok" = "ok" := by
  have h := api_voice_validation_C9 { apiKey := "k", lastCallTimestamp := 0 } 0 0
    (fun _ => FetchOutcome.response true 200 "" [1])
    { text := some (JsVal.str ""), persona := none } "" rfl (Or.inl rfl)
  refine ⟨h.1, h.2.1, ?_⟩
  exact (h.2.2.2 { text := some (JsVal.str "ok"), persona := none } "ok" rfl
    (by decide)).1

/-- Claim C10: getAllVoices returns the empty list — not the two-entry
fallback catalog that getVoices returns — whenever the API key is missing,
the provider responds with a non-success status, or the fetch throws; it
never raises. -/
theorem getAllVoices_empty_C10 (apiKey : String) (f : VoicesFetch) :
    (apiKey = "" → getAllVoices apiKey f = []) ∧
    (f = VoicesFetch.throws → getAllVoices apiKey f = []) ∧
    (∀ status voices, f = VoicesFetch.response false status voices →
      getAllVoices apiKey f = []) ∧
    getVoices true VoicesFetch.throws = fallbackVoices ∧
    (∀ status voices,
      getVoices true (VoicesFetch.response false status voices) =
        fallbackVoices) ∧
    fallbackVoices.length = 2 ∧
    ([] : List VoiceEntry) ≠ fallbackVoices := by
  refine ⟨?_, ?_, ?_, ?_, ?_, rfl, ?_⟩
  · intro hk
    simp [getAllVoices, hk]
  · intro hf
    subst hf
    simp [getAllVoices]
  · intro status voices hf
    subst hf
    simp [getAllVoices]
  · simp [getVoices]
  · intro status voices
    simp [getVoices]
  · decide

/-- Claim C10 witness: with no API key and a throwing fetch, getAllVoices is
empty while getVoices still returns the two-entry fallback catalog. -/
theorem getAllVoices_empty_witness_C10 :
    getAllVoices "" VoicesFetch.throws = [] ∧
    getVoices true VoicesFetch.throws = fallbackVoices :=
  ⟨(getAllVoices_empty_C10 "" VoicesFetch.throws).1 rfl,
   (getAllVoices_empty_C10 "" VoicesFetch.throws).2.2.2.1⟩
